import Mathlib

/-!
Shallow embedding of `nyaggle/experiment/gbdt.py` (functions `experiment_gbdt`
and `_dispatch_gbdt`) together with a spec-modelled cross-validation driver
(`cv` lives in `nyaggle/model/cv.py`, which is not part of the sources at hand).
External collaborators (pandas frames, sklearn metrics, the gradient-boosting
libraries, the file system) are modelled explicitly: frames carry column names,
dtypes and cell values; model fitting/prediction and fold assignment are
abstract oracles; the file system is the flag "does the logging directory
already exist" plus the ordered list of file names written under it.
-/

namespace Nyaggle

/-- A pandas column: name, dtype name (as reported by `dtype.name`), and the
cell values (identifier columns hold integers; feature values are never
inspected by the code under study, so integers suffice). -/
structure Column where
  name : String
  dtype : String
  values : List Int
deriving DecidableEq, Repr

/-- A pandas DataFrame, reduced to what `experiment_gbdt` touches: the index
(its name, if any, and its values) and the list of columns. -/
structure DataFrame where
  indexName : Option String
  indexVals : List Int
  cols : List Column
deriving DecidableEq, Repr

/-- The pandas `df.columns` attribute, as a list of names. -/
def DataFrame.columns (df : DataFrame) : List String := df.cols.map (·.name)

/-- The pandas `df.set_index(k, inplace=True)`: the column named `k` becomes the index and
disappears from the columns. -/
def DataFrame.set_index (df : DataFrame) (k : String) : DataFrame :=
  { indexName := some k
    indexVals := (((df.cols.find? (fun c => c.name == k)).map (·.values)).getD [])
    cols := df.cols.filter (fun c => c.name != k) }

/-- A pandas Series used as the target `y`: its `.name` and its values. -/
structure Series where
  name : String
  values : List ℚ
deriving DecidableEq

/-- A value stored in the `fit_params` dictionary: either a list of categorical
feature names (the only value the code itself ever inserts) or an arbitrary
caller-supplied value, represented by an opaque tag. -/
inductive FitVal where
  | cats (l : List String)
  | otherVal (n : Nat)
deriving DecidableEq, Repr

/-- A Python dict with string keys, as an insertion-ordered association list. -/
abbrev Dict := List (String × FitVal)

/-- The membership test `k in d` for a Python dict. -/
def Dict.containsKey (d : Dict) (k : String) : Bool := d.any (fun p => p.1 == k)

/-- The assignment `d[k] = v` for a key `k` that is absent from `d` (the only kind of
assignment the code performs): appended at the end, as in CPython. -/
def Dict.insertNew (d : Dict) (k : String) (v : FitVal) : Dict := d ++ [(k, v)]

/-- The lookup `d[k]`. -/
def Dict.get? (d : Dict) (k : String) : Option FitVal :=
  (d.find? (fun p => p.1 == k)).map (·.2)

/-! ### Evaluation metrics (external collaborators from sklearn) -/

/-- The type of evaluation functions: `f(y_true, y_pred)`. -/
abbrev EvalFn := List ℚ → List ℚ → ℚ

/-- sklearn `mean_squared_error`: mean of squared differences. -/
def mean_squared_error : EvalFn := fun y_true y_pred =>
  (((y_true.zip y_pred).map (fun p => (p.1 - p.2) ^ 2)).sum) / y_true.length

/-- sklearn `roc_auc_score`: probability that a positive example is scored
above a negative one, ties counting one half. -/
def roc_auc_score : EvalFn := fun y_true y_score =>
  let pairs := y_true.zip y_score
  let pos := (pairs.filter (fun p => p.1 == 1)).map (·.2)
  let neg := (pairs.filter (fun p => p.1 != 1)).map (·.2)
  let wins := (pos.map (fun p =>
    (neg.map (fun n => if n < p then (1 : ℚ) else if n = p then 1/2 else 0)).sum)).sum
  wins / (pos.length * neg.length)

/-! ### The dispatch table (`_dispatch_gbdt`) -/

/-- The model constructors appearing in the dispatch table. -/
inductive ModelClass where
  | LGBMClassifier
  | LGBMRegressor
  | CatBoostClassifier
  | CatBoostRegressor
deriving DecidableEq, Repr

/-- The importance extractors appearing in the dispatch table
(`_get_importance_lgbm` reads `booster_.feature_importance(type="gain")`,
`_get_importance_cat` reads `get_feature_importance()`; both are calls into
the external model object, so here they are tags). -/
inductive ImportanceFn where
  | get_importance_lgbm
  | get_importance_cat
deriving DecidableEq, Repr

/-- One row of the `gbdt_table` literal in `_dispatch_gbdt`. -/
structure GbdtEntry where
  target_type : String
  gbdt_type : String
  model : ModelClass
  eval : EvalFn
  cat_param : String
  get_importance : ImportanceFn

/-- The `gbdt_table` list literal, in source order. -/
def gbdt_table : List GbdtEntry :=
  [ ⟨"binary", "lgbm", .LGBMClassifier, roc_auc_score, "categorical_feature", .get_importance_lgbm⟩
  , ⟨"continuous", "lgbm", .LGBMRegressor, mean_squared_error, "categorical_feature", .get_importance_lgbm⟩
  , ⟨"binary", "cat", .CatBoostClassifier, roc_auc_score, "cat_features", .get_importance_cat⟩
  , ⟨"continuous", "cat", .CatBoostRegressor, mean_squared_error, "cat_features", .get_importance_cat⟩ ]

/-- The message of the `RuntimeError` raised when no table entry matches. -/
def _dispatchErrMsg (gbdt_type target_type : String) : String :=
  "Not supported gbdt_type (" ++ gbdt_type ++ ") or type_of_target (" ++ target_type ++ ")."

/-- The dispatch function `_dispatch_gbdt(gbdt_type, target_type, custom_eval)`:
first-true lookup in `gbdt_table` on the (target_type, gbdt_type) pair; on a
hit, the custom evaluation function (when given) replaces the table's; on a
miss, a `RuntimeError` naming both inputs. -/
def _dispatch_gbdt (gbdt_type target_type : String) (custom_eval : Option EvalFn) :
    Except String (ModelClass × EvalFn × String × ImportanceFn) :=
  match gbdt_table.find? (fun x => x.target_type == target_type && x.gbdt_type == gbdt_type) with
  | none => .error (_dispatchErrMsg gbdt_type target_type)
  | some found =>
    let ev := match custom_eval with
      | some f => f
      | none => found.eval
    .ok (found.model, ev, found.cat_param, found.get_importance)

/-! ### Spec-modelled cross-validation driver -/

/-- The external behavior on which a run depends: the label type as reported by
sklearn `type_of_target(y)`, the fold assignment drawn by `KFold` (a function
from row position to fold index), the fitted fold models' predictions on
training rows and on the test frame, the per-fold feature-importance vectors
reported by the backend, and whether the logging directory already exists. -/
structure Oracle where
  target_type : String
  foldOf : Nat → Nat
  predictVal : Nat → Nat → ℚ
  predictTest : Nat → List ℚ
  importanceOf : Nat → List ℚ
  dirExists : Bool

/-- The result bundle returned by the cross-validation driver. -/
structure CVResult where
  predicted_oof : List ℚ
  predicted_test : Option (List ℚ)
  scores : List ℚ
deriving DecidableEq

/-- Elementwise unweighted mean of a list of equal-length lists. -/
def avgLists (ls : List (List ℚ)) : List ℚ :=
  (List.range ((ls.headD []).length)).map fun j =>
    ((ls.map (fun l => l.getD j 0)).sum) / ls.length

/-- Modelled from the spec: the cross-validation driver `cv` (module
`nyaggle/model/cv.py`, not among the sources at hand), spec §4.2. Each row `r`
of the `n` training rows belongs to fold `foldOf r`; its out-of-fold prediction
comes from exactly the model of that fold. Test predictions, when a test frame
is present, are the unweighted mean of the fold models' test predictions. When
an evaluation function is supplied, each fold's score is the function applied
to the held-out labels and held-out predictions, and the overall score
`eval(all_labels, out_of_fold_predictions)` is appended as the final entry;
otherwise the scores list is empty. -/
def cv (o : Oracle) (n : Nat) (y : List ℚ) (hasTest : Bool) (nfolds : Nat)
    (eval : Option EvalFn) : CVResult :=
  let oof := (List.range n).map fun r => o.predictVal (o.foldOf r) r
  let test := if hasTest then some (avgLists ((List.range nfolds).map o.predictTest)) else none
  let scores := match eval with
    | none => []
    | some f =>
      ((List.range nfolds).map fun i =>
        let held := (List.range n).filter (fun r => o.foldOf r == i)
        f (held.map (fun r => y.getD r 0)) (held.map (fun r => o.predictVal i r)))
      ++ [f y oof]
  ⟨oof, test, scores⟩

/-! ### The experiment orchestrator (`experiment_gbdt`) -/

/-- The namedtuple `GBDTResult` (minus the wall-clock `time` member, which is
real time and outside the embedding). -/
structure GBDTResult where
  predicted_oof : List ℚ
  predicted_test : Option (List ℚ)
  scores : List ℚ
  models : List ModelClass
  importance : List (String × ℚ)
deriving DecidableEq

/-- The caller-visible arguments of `experiment_gbdt`. `model_params` is kept
as an opaque tag (it is only forwarded to the external constructors), and
`seed` is only forwarded to the external `KFold`, which the `Oracle` already
abstracts. -/
structure Args where
  id_column : String
  X_train : DataFrame
  y : Series
  X_test : Option DataFrame
  eval : Option EvalFn
  gbdt_type : String
  fit_params : Option Dict
  nfolds : Nat
  overwrite : Bool
  stratified : Bool
  seed : Nat
  categorical_feature : Option (List String)
  submission_filename : String

/-- Everything observable about one call of `experiment_gbdt`: the returned
value or the exception, the file names written under the logging directory (in
write order), the caller's frames and `fit_params` dict after the call (Python
mutates them in place), and — when the cross-validation driver was reached —
the stratification flag and the `fit_params` dict it was given. -/
structure RunOutput where
  result : Except String GBDTResult
  files : List String
  X_train : DataFrame
  X_test : Option DataFrame
  fit_params : Option Dict
  cv_stratified : Option Bool
  cv_fit_params : Option Dict

/-- Lines 93-99 of `experiment_gbdt`: if the id column is among the training
columns, assert equal train/test column lists and move the id column into the
index of both frames; then assert that the training index is named by the id
column. Returns the (possibly re-indexed) frames. -/
def normalize_frames (id_column : String) (X_train : DataFrame) (X_test : Option DataFrame) :
    Except String (DataFrame × Option DataFrame) :=
  let checked : DataFrame → Option DataFrame → Except String (DataFrame × Option DataFrame) :=
    fun tr te =>
      if tr.indexName = some id_column then .ok (tr, te)
      else .error "AssertionError: index does not match"
  if id_column ∈ X_train.columns then
    match X_test with
    | some t =>
      if X_train.columns = t.columns then
        checked (X_train.set_index id_column) (some (t.set_index id_column))
      else .error "AssertionError"
    | none => checked (X_train.set_index id_column) none
  else
    checked X_train X_test

/-- The auto-detection of categorical features: columns whose dtype name is
`object` or `category`. -/
def autoCategorical (df : DataFrame) : List String :=
  (df.cols.filter (fun c => c.dtype == "object" || c.dtype == "category")).map (·.name)

/-- pandas `concat` of the per-fold importance frames harvested by the
callback: for each fold, the columns of the (re-indexed) training frame zipped
with the backend's importance vector for that fold's model. -/
def foldImportances (cols : List String) (o : Oracle) (nfolds : Nat) : List (String × ℚ) :=
  (List.range nfolds).flatMap fun i => cols.zip (o.importanceOf i)

/-- pandas `groupby("feature")["importance"].mean().reset_index()`: one row per
distinct feature name (groupby sorts keys ascending), holding the arithmetic
mean of that feature's importance values. -/
def groupby_mean (rows : List (String × ℚ)) : List (String × ℚ) :=
  (((rows.map Prod.fst).dedup).mergeSort (fun a b => a ≤ b)).map fun k =>
    let vs := (rows.filter (fun p => p.1 == k)).map Prod.snd
    (k, vs.sum / vs.length)

/-- The descending-by-score ordering used by
`sort_values(by="importance", ascending=False)`. -/
def impGE (p q : String × ℚ) : Prop := q.2 ≤ p.2

instance : DecidableRel impGE := fun p q => inferInstanceAs (Decidable (q.2 ≤ p.2))

instance : IsTotal (String × ℚ) impGE := ⟨fun p q => le_total q.2 p.2⟩

instance : IsTrans (String × ℚ) impGE := ⟨fun _ _ _ h h2 => le_trans h2 h⟩

/-- The pandas `sort_values(by="importance", ascending=False, inplace=True)`. -/
def sort_values_desc (rows : List (String × ℚ)) : List (String × ℚ) :=
  rows.insertionSort impGE

/-- The full body of `experiment_gbdt`, line by line: index normalization,
`os.makedirs(logging_directory, exist_ok=overwrite)`, log file creation,
categorical-feature auto-detection, `type_of_target`, dispatch, model
construction, the stratification override for non-classification targets,
categorical-feature injection into `fit_params`, the call to `cv`, importance
aggregation, and artifact persistence (importance plot, `oof.npy`, `test.npy`
and — reading `X_test.index`, unconditionally — the submission file). -/
def experiment_gbdt (o : Oracle) (a : Args) : RunOutput :=
  let errOut : String → List String → DataFrame → Option DataFrame → RunOutput :=
    fun e fs tr te =>
      ⟨.error e, fs, tr, te, a.fit_params, none, none⟩
  match normalize_frames a.id_column a.X_train a.X_test with
  | .error e => errOut e [] a.X_train a.X_test
  | .ok (X_train, X_test) =>
    -- os.makedirs(logging_directory, exist_ok=overwrite)
    if o.dirExists && !a.overwrite then
      errOut "FileExistsError" [] X_train X_test
    else
      -- FileHandler(os.path.join(logging_directory, "log.txt")) + info lines
      let files := ["log.txt"]
      let categorical_feature := a.categorical_feature.getD (autoCategorical X_train)
      let target_type := o.target_type
      match _dispatch_gbdt a.gbdt_type target_type a.eval with
      | .error e => errOut e files X_train X_test
      | .ok (model, eval, cat_param_name, _get_feature_importance) =>
        let models := List.replicate a.nfolds model
        let stratified := if target_type != "binary" && target_type != "multiclass"
          then false else a.stratified
        let fit_params : Dict := a.fit_params.getD []
        let fit_params :=
          if !(fit_params.containsKey cat_param_name) then
            fit_params.insertNew cat_param_name (.cats categorical_feature)
          else fit_params
        let result := cv o X_train.indexVals.length a.y.values X_test.isSome a.nfolds (some eval)
        let importance := sort_values_desc (groupby_mean
          (foldImportances X_train.columns o a.nfolds))
        -- plot_importance → feature_importance.png; np.save("oof"); np.save("test")
        let files := files ++ ["feature_importance.png", "oof.npy", "test.npy"]
        let out : Except String GBDTResult × List String :=
          match X_test with
          | none =>
            -- submit = pd.DataFrame({id_column: X_test.index, ...}) on None
            (.error "AttributeError: NoneType object has no attribute index", files)
          | some _ =>
            (.ok ⟨result.predicted_oof, result.predicted_test, result.scores,
                models, importance⟩,
             files ++ [a.submission_filename])
        ⟨out.1, out.2, X_train, X_test,
          a.fit_params.map (fun _ => fit_params), some stratified, some fit_params⟩

/-! ## Basic lemmas about the embedded operations -/

theorem set_index_indexName (df : DataFrame) (k : String) :
    (df.set_index k).indexName = some k := rfl

theorem set_index_not_mem_columns (df : DataFrame) (k : String) :
    k ∉ (df.set_index k).columns := by
  intro hmem
  simp only [DataFrame.columns, DataFrame.set_index, List.mem_map] at hmem
  obtain ⟨c, hc, hname⟩ := hmem
  simp only [List.mem_filter, bne_iff_ne, ne_eq] at hc
  exact hc.2 hname

/-- The pairs the dispatch table supports. -/
def supportedPair (gbdt_type target_type : String) : Prop :=
  (gbdt_type = "lgbm" ∨ gbdt_type = "cat")
  ∧ (target_type = "binary" ∨ target_type = "continuous")

instance (g t : String) : Decidable (supportedPair g t) := by
  unfold supportedPair; infer_instance

/-- The evaluation-function component of a dispatch result. -/
def evalOf (r : Except String (ModelClass × EvalFn × String × ImportanceFn)) :
    Option EvalFn :=
  match r with
  | .ok x => some x.2.1
  | .error _ => none

/-! ## C2 -/

/-- C2: every (gbdt_type, target_type) pair outside {lgbm, cat} x {binary,
continuous} makes `_dispatch_gbdt` fail with an error whose message names both
inputs, whatever the custom-eval argument; each of the four supported pairs
(queried without a custom eval) yields exactly its table row — model
constructor, default evaluation function, categorical-parameter name and
importance extractor. The embedded dispatch is a pure function, so it has no
side effects. -/
theorem c2_dispatch_table :
    (∀ g t c, ¬ supportedPair g t →
      _dispatch_gbdt g t c = .error (_dispatchErrMsg g t)
      ∧ ∃ s₁ s₂ s₃, _dispatchErrMsg g t = s₁ ++ g ++ s₂ ++ t ++ s₃)
    ∧ _dispatch_gbdt "lgbm" "binary" none =
        .ok (.LGBMClassifier, roc_auc_score, "categorical_feature", .get_importance_lgbm)
    ∧ _dispatch_gbdt "lgbm" "continuous" none =
        .ok (.LGBMRegressor, mean_squared_error, "categorical_feature", .get_importance_lgbm)
    ∧ _dispatch_gbdt "cat" "binary" none =
        .ok (.CatBoostClassifier, roc_auc_score, "cat_features", .get_importance_cat)
    ∧ _dispatch_gbdt "cat" "continuous" none =
        .ok (.CatBoostRegressor, mean_squared_error, "cat_features", .get_importance_cat) := by
  refine ⟨?_, rfl, rfl, rfl, rfl⟩
  intro g t c h
  refine ⟨?_, "Not supported gbdt_type (", ") or type_of_target (", ").", rfl⟩
  unfold _dispatch_gbdt
  have hfind : gbdt_table.find?
      (fun x => x.target_type == t && x.gbdt_type == g) = none := by
    rw [List.find?_eq_none]
    intro x hx
    simp only [gbdt_table, List.mem_cons, List.not_mem_nil, or_false] at hx
    rcases hx with rfl | rfl | rfl | rfl <;>
      · intro hb
        simp only [Bool.and_eq_true, beq_iff_eq] at hb
        first
        | exact h ⟨Or.inl hb.2.symm, Or.inl hb.1.symm⟩
        | exact h ⟨Or.inl hb.2.symm, Or.inr hb.1.symm⟩
        | exact h ⟨Or.inr hb.2.symm, Or.inl hb.1.symm⟩
        | exact h ⟨Or.inr hb.2.symm, Or.inr hb.1.symm⟩
  rw [hfind]

/-- Witness for C2 at the unsupported pair (xgb, binary). -/
theorem c2_dispatch_table_witness :
    _dispatch_gbdt "xgb" "binary" none = .error (_dispatchErrMsg "xgb" "binary")
    ∧ _dispatchErrMsg "xgb" "binary" =
        "Not supported gbdt_type (xgb) or type_of_target (binary)." :=
  ⟨(c2_dispatch_table.1 "xgb" "binary" none (by decide)).1, rfl⟩

/-! ## C7 -/

/-- C7: with a custom evaluation function supplied, dispatch for a supported
pair returns exactly that function; a call without one returns the table's
original default for the pair (`roc_auc_score` for binary targets,
`mean_squared_error` for continuous ones). The table is a list literal rebuilt
inside the pure function on every call, so no call can change what a later
call sees. -/
theorem c7_custom_eval_override (g t : String) (f : EvalFn) (h : supportedPair g t) :
    evalOf (_dispatch_gbdt g t (some f)) = some f
    ∧ evalOf (_dispatch_gbdt g t none) =
        some (if t = "binary" then roc_auc_score else mean_squared_error) := by
  obtain ⟨hg | hg, ht | ht⟩ := h <;> subst hg <;> subst ht <;> exact ⟨rfl, rfl⟩

/-- A caller-supplied evaluation function used by the C7 witness. -/
def constEval7 : EvalFn := fun _ _ => 7

/-- Witness for C7 at (lgbm, continuous). -/
theorem c7_custom_eval_override_witness :
    evalOf (_dispatch_gbdt "lgbm" "continuous" (some constEval7)) = some constEval7
    ∧ evalOf (_dispatch_gbdt "lgbm" "continuous" none) = some mean_squared_error := by
  have h := c7_custom_eval_override "lgbm" "continuous" constEval7 ⟨Or.inl rfl, Or.inr rfl⟩
  exact ⟨h.1, h.2⟩

/-! ## Characterizing the run paths of `experiment_gbdt` -/

/-- On the main path — frames normalize, the logging directory is available,
dispatch succeeds — the whole observable outcome of `experiment_gbdt` in one
equation. -/
theorem experiment_gbdt_eq (o : Oracle) (a : Args) (tr : DataFrame)
    (te : Option DataFrame) (m : ModelClass) (f : EvalFn) (cp : String)
    (ifn : ImportanceFn)
    (hn : normalize_frames a.id_column a.X_train a.X_test = .ok (tr, te))
    (hd : (o.dirExists && !a.overwrite) = false)
    (hdi : _dispatch_gbdt a.gbdt_type o.target_type a.eval = .ok (m, f, cp, ifn)) :
    experiment_gbdt o a =
      (let stratified :=
        if o.target_type != "binary" && o.target_type != "multiclass" then false
        else a.stratified
      let fp0 : Dict := a.fit_params.getD []
      let fp : Dict :=
        if !(fp0.containsKey cp) then
          fp0.insertNew cp (.cats (a.categorical_feature.getD (autoCategorical tr)))
        else fp0
      let result := cv o tr.indexVals.length a.y.values te.isSome a.nfolds (some f)
      let importance :=
        sort_values_desc (groupby_mean (foldImportances tr.columns o a.nfolds))
      match te with
      | none =>
        ⟨.error "AttributeError: NoneType object has no attribute index",
         ["log.txt", "feature_importance.png", "oof.npy", "test.npy"],
         tr, te, a.fit_params.map (fun _ => fp), some stratified, some fp⟩
      | some _ =>
        ⟨.ok ⟨result.predicted_oof, result.predicted_test, result.scores,
              List.replicate a.nfolds m, importance⟩,
         ["log.txt", "feature_importance.png", "oof.npy", "test.npy",
          a.submission_filename],
         tr, te, a.fit_params.map (fun _ => fp), some stratified, some fp⟩) := by
  simp only [experiment_gbdt, hn, hd, hdi, Bool.false_eq_true, if_false]
  cases te <;> rfl

/-- A run that returns a result passed frame normalization with a test frame
present, found the logging directory available, and dispatched successfully. -/
theorem run_ok_elim {o : Oracle} {a : Args} {r : GBDTResult}
    (hr : (experiment_gbdt o a).result = .ok r) :
    ∃ tr te m f cp ifn,
      normalize_frames a.id_column a.X_train a.X_test = .ok (tr, some te)
      ∧ (o.dirExists && !a.overwrite) = false
      ∧ _dispatch_gbdt a.gbdt_type o.target_type a.eval = .ok (m, f, cp, ifn) := by
  simp only [experiment_gbdt] at hr
  split at hr
  · simp at hr
  next tr te heq =>
    split at hr
    · simp at hr
    next hcond =>
      split at hr
      · simp at hr
      next m f cp ifn heq3 =>
        split at hr
        · simp at hr
        next t =>
          exact ⟨tr, t, m, f, cp, ifn, heq, by simpa using hcond, heq3⟩

/-- With an evaluation function present, the last score the driver reports is
that function applied to the full label list and the out-of-fold predictions. -/
theorem cv_scores_getLast (o : Oracle) (n : Nat) (y : List ℚ) (hasTest : Bool)
    (nfolds : Nat) (f : EvalFn) :
    (cv o n y hasTest nfolds (some f)).scores.getLast? =
      some (f y (cv o n y hasTest nfolds (some f)).predicted_oof) := by
  simp only [cv]
  exact List.getLast?_concat _

/-! ## Concrete inputs shared by the witnesses -/

/-- A two-row training frame whose identifier column `uid` is still among the
columns, one categorical feature `a` and one numeric feature `b`. -/
def trainHappy : DataFrame :=
  ⟨none, [], [⟨"uid", "int64", [10, 11]⟩, ⟨"a", "object", [0, 1]⟩, ⟨"b", "int64", [2, 3]⟩]⟩

/-- A one-row test frame with the same columns as `trainHappy`. -/
def testHappy : DataFrame :=
  ⟨none, [], [⟨"uid", "int64", [20]⟩, ⟨"a", "object", [5]⟩, ⟨"b", "int64", [6]⟩]⟩

/-- An external-behavior oracle for a regression run: row `r` falls in fold
`r % 2`, fold `i` predicts `i + 2 r` on row `r` and `[i]` on the test frame,
and reports importances `[3 + i, 5]`; the logging directory does not exist. -/
def oHappy : Oracle :=
  ⟨"continuous", fun r => r % 2, fun i r => (i : ℚ) + 2 * r, fun i => [(i : ℚ)],
   fun i => [(3 : ℚ) + i, 5], false⟩

/-- Baseline arguments: two folds, overwrite on, no custom eval, no explicit
categorical features, no caller fit params. -/
def argsHappy : Args :=
  ⟨"uid", trainHappy, ⟨"tgt", [1, 2]⟩, some testHappy, none, "lgbm", none, 2, true,
   false, 42, none, "submission.csv"⟩

/-! ## C3 -/

/-- C3: when the logging directory already exists and `overwrite` is off, a run
whose frames normalize stops with the `FileExistsError` from `os.makedirs`
having written nothing; with `overwrite` on, the run behaves exactly as if the
directory had not existed (it is reused, no error, the run proceeds). -/
theorem c3_output_conflict (o : Oracle) (a : Args) (tr : DataFrame)
    (te : Option DataFrame)
    (hn : normalize_frames a.id_column a.X_train a.X_test = .ok (tr, te))
    (hex : o.dirExists = true) :
    (a.overwrite = false →
      experiment_gbdt o a =
        ⟨.error "FileExistsError", [], tr, te, a.fit_params, none, none⟩)
    ∧ (a.overwrite = true →
      experiment_gbdt o a = experiment_gbdt { o with dirExists := false } a) := by
  constructor
  · intro hov
    simp only [experiment_gbdt, hn, hex, hov, Bool.not_false, Bool.and_true, if_true]
  · intro hov
    simp only [experiment_gbdt, hn, hov, Bool.not_true, Bool.and_false,
      Bool.false_eq_true, if_false]
    rfl

/-- Arguments for the C3 witness: overwrite disabled, otherwise baseline. -/
def aC3 : Args := { argsHappy with overwrite := false }

/-- Witness for C3: with the directory present and overwrite off, the run
errors out having written no file, leaving the (already re-indexed) frames. -/
theorem c3_output_conflict_witness :
    experiment_gbdt { oHappy with dirExists := true } aC3 =
      ⟨.error "FileExistsError", [], trainHappy.set_index "uid",
       some (testHappy.set_index "uid"), none, none, none⟩ :=
  (c3_output_conflict { oHappy with dirExists := true } aC3
    (trainHappy.set_index "uid") (some (testHappy.set_index "uid")) rfl rfl).1 rfl

/-! ## C4 -/

/-- C4: in a run with a continuous target and a supplied evaluation function
that returns a result, the final entry of the scores list is exactly the
evaluation function applied to the full label series and the returned
out-of-fold predictions. The cross-validation driver is spec-modelled
(`cv` is outside the sources at hand). -/
theorem c4_overall_score (o : Oracle) (a : Args) (f : EvalFn) (r : GBDTResult)
    (_hc : o.target_type = "continuous") (he : a.eval = some f)
    (hr : (experiment_gbdt o a).result = .ok r) :
    r.scores.getLast? = some (f a.y.values r.predicted_oof) := by
  obtain ⟨tr, te, m, g, cp, ifn, hn, hd, hdi⟩ := run_ok_elim hr
  have hg : g = f := by
    rw [he] at hdi
    unfold _dispatch_gbdt at hdi
    rcases hfind : gbdt_table.find?
        (fun x => x.target_type == o.target_type && x.gbdt_type == a.gbdt_type)
      with _ | entry
    · rw [hfind] at hdi; simp at hdi
    · rw [hfind] at hdi
      simp only [Except.ok.injEq, Prod.mk.injEq] at hdi
      exact hdi.2.1.symm
  subst hg
  have heq := experiment_gbdt_eq o a tr (some te) m g cp ifn hn hd hdi
  rw [heq] at hr
  simp only [Except.ok.injEq] at hr
  subst hr
  exact cv_scores_getLast o tr.indexVals.length a.y.values true a.nfolds g

/-- The sum-of-a-run's-outcomes view used to decide equality of run results. -/
def exceptToSum : Except String GBDTResult → String ⊕ GBDTResult
  | .error e => .inl e
  | .ok v => .inr v

instance : DecidableEq (Except String GBDTResult) := fun a b =>
  decidable_of_iff (exceptToSum a = exceptToSum b)
    (by cases a <;> cases b <;> simp [exceptToSum])

/-- The custom evaluation function of the C4 witness. -/
def evalC4 : EvalFn := fun yt yp => yt.sum - yp.sum

/-- Arguments for the C4 witness: baseline plus the custom eval. -/
def aC4 : Args := { argsHappy with eval := some evalC4 }

/-- The result bundle the C4 witness run produces. -/
def rC4 : GBDTResult :=
  ⟨[0, 3], some [1/2], [1, -1, 0], [.LGBMRegressor, .LGBMRegressor],
   [("b", 5), ("a", 7/2)]⟩

/-- Witness for C4 on a concrete two-row regression run. -/
theorem c4_overall_score_witness :
    (experiment_gbdt oHappy aC4).result = .ok rC4
    ∧ rC4.scores.getLast? = some (evalC4 aC4.y.values rC4.predicted_oof) :=
  ⟨by with_unfolding_all rfl, c4_overall_score oHappy aC4 evalC4 rC4 rfl rfl (by with_unfolding_all rfl)⟩

/-! ## C6 -/

/-- C6: with a continuous detected label type, a run behaves identically
whether the caller asked for stratification or not — the flag handed to the
cross-validation driver is forced to `False` and no error arises from the
combination. -/
theorem c6_stratification (o : Oracle) (a : Args) (hc : o.target_type = "continuous") :
    experiment_gbdt o { a with stratified := true } =
      experiment_gbdt o { a with stratified := false }
    ∧ ∀ b, (experiment_gbdt o a).cv_stratified = some b → b = false := by
  constructor
  · simp only [experiment_gbdt, hc,
      show (("continuous" : String) != "binary"
        && ("continuous" : String) != "multiclass") = true from rfl, if_true]
  · intro b hb
    simp only [experiment_gbdt] at hb
    split at hb
    · simp at hb
    · split at hb
      · simp at hb
      · split at hb
        · simp at hb
        · simp only [hc,
            show (("continuous" : String) != "binary"
              && ("continuous" : String) != "multiclass") = true from rfl,
            if_true, Option.some.injEq] at hb
          exact hb.symm

/-- Witness for C6: on the concrete regression run, asking for stratification
changes nothing about the run's outcome. -/
theorem c6_stratification_witness :
    experiment_gbdt oHappy { argsHappy with stratified := true } =
      experiment_gbdt oHappy { argsHappy with stratified := false } :=
  (c6_stratification oHappy argsHappy rfl).1

/-! ## C1 -/

/-- Arguments for C1: the baseline run with no test frame supplied. -/
def aC1 : Args := { argsHappy with X_test := none }

/-- C1 records a divergence between the code and its own documented contract:
with `X_test = None` the docstring promises a normal completion with
`predicted_test = None` and no submission, but `experiment_gbdt`
unconditionally saves `test.npy` and then evaluates `X_test.index`, so the run
writes the test-prediction file and dies with an `AttributeError` instead of
completing; the importance plot and `oof.npy` were already written at that
point. -/
theorem c1_missing_test_frame_crash :
    aC1.X_test = none
    ∧ (experiment_gbdt oHappy aC1).result =
        .error "AttributeError: NoneType object has no attribute index"
    ∧ (experiment_gbdt oHappy aC1).files =
        ["log.txt", "feature_importance.png", "oof.npy", "test.npy"]
    ∧ "test.npy" ∈ (experiment_gbdt oHappy aC1).files
    ∧ aC1.submission_filename ∉ (experiment_gbdt oHappy aC1).files := by
  with_unfolding_all decide

/-! ## C5 -/

/-- A test frame holding the same column names as `trainHappy` but with `a`
and `b` swapped: equal column sets, different column order. -/
def testC5 : DataFrame :=
  ⟨none, [], [⟨"uid", "int64", [20]⟩, ⟨"b", "int64", [6]⟩, ⟨"a", "object", [5]⟩]⟩

/-- Arguments for the C5 counterexample: baseline with the permuted test
frame. -/
def aC5 : Args := { argsHappy with X_test := some testC5 }

/-- C5 counterexample: the identifier is a column of both frames and the
column sets of train and test coincide (the lists are permutations of each
other), yet the run raises an assertion error and re-indexes nothing — the
code compares the full column lists order-sensitively, which the claim's
"column sets" reading says should pass. -/
theorem c5_counterexample :
    aC5.X_train.columns.Perm testC5.columns
    ∧ aC5.id_column ∈ aC5.X_train.columns
    ∧ aC5.id_column ∈ testC5.columns
    ∧ (experiment_gbdt oHappy aC5).result = .error "AssertionError"
    ∧ (experiment_gbdt oHappy aC5).X_test = some testC5 := by
  with_unfolding_all decide

/-- C5 amended: when the identifier column is among the Training Frame's
columns, a supplied Test Frame must have the *exact same column list* (same
names, same order, identifier included) — then both frames are re-indexed by
the identifier, which disappears from their columns; any difference, even a
reordering, raises an assertion error before fitting. When the identifier is
not among the Training Frame's columns, the Test Frame is neither checked nor
re-indexed, and the run proceeds (frames untouched) exactly when the Training
Frame's index is already named by the identifier, raising the
index-mismatch assertion otherwise. -/
theorem c5_normalize_frames_amended (id : String) (tr : DataFrame)
    (te : Option DataFrame) :
    (id ∈ tr.columns →
      (∀ t, te = some t →
        (tr.columns = t.columns →
          normalize_frames id tr te = .ok (tr.set_index id, some (t.set_index id)))
        ∧ (tr.columns ≠ t.columns →
          normalize_frames id tr te = .error "AssertionError"))
      ∧ (te = none → normalize_frames id tr te = .ok (tr.set_index id, none)))
    ∧ (id ∉ tr.columns →
      (tr.indexName = some id → normalize_frames id tr te = .ok (tr, te))
      ∧ (tr.indexName ≠ some id →
        normalize_frames id tr te = .error "AssertionError: index does not match"))
    ∧ ∀ df : DataFrame, (df.set_index id).indexName = some id
        ∧ id ∉ (df.set_index id).columns := by
  refine ⟨?_, ?_, fun df => ⟨set_index_indexName df id, set_index_not_mem_columns df id⟩⟩
  · intro hid
    constructor
    · intro t hte
      subst hte
      constructor
      · intro hcols
        simp only [normalize_frames, if_pos hid, if_pos hcols,
          set_index_indexName, if_pos rfl, if_true]
      · intro hcols
        simp only [normalize_frames, if_pos hid, if_neg hcols]
    · intro hte
      subst hte
      simp only [normalize_frames, if_pos hid, set_index_indexName, if_pos rfl, if_true]
  · intro hid
    constructor
    · intro hidx
      simp only [normalize_frames, if_neg hid, if_pos hidx]
    · intro hidx
      simp only [normalize_frames, if_neg hid, if_neg hidx]

/-- Witness for the amended C5 at concrete frames: the permuted test frame
trips the assertion, and a run without the identifier in the training columns
passes exactly when the index is already so named. -/
theorem c5_normalize_frames_amended_witness :
    normalize_frames "uid" trainHappy (some testC5) = .error "AssertionError"
    ∧ normalize_frames "uid" (trainHappy.set_index "uid") (some testC5) =
        .ok (trainHappy.set_index "uid", some testC5) := by
  constructor
  · exact ((((c5_normalize_frames_amended "uid" trainHappy
      (some testC5)).1 (by decide)).1 testC5 rfl).2 (by decide))
  · exact ((((c5_normalize_frames_amended "uid" (trainHappy.set_index "uid")
      (some testC5)).2.1 (by decide)).1) (by decide))

/-! ## C8 -/

theorem sort_values_sorted (l : List (String × ℚ)) :
    List.Sorted impGE (sort_values_desc l) :=
  List.sorted_insertionSort impGE l

theorem sort_values_perm (l : List (String × ℚ)) :
    (sort_values_desc l).Perm l :=
  List.perm_insertionSort impGE l

/-- Each row of the grouped table carries a feature name occurring in the
input and the arithmetic mean of that feature's scores. -/
theorem groupby_mean_mem {rows : List (String × ℚ)} {p : String × ℚ}
    (hp : p ∈ groupby_mean rows) :
    p.1 ∈ rows.map Prod.fst
    ∧ p.2 = ((rows.filter (fun q => q.1 == p.1)).map Prod.snd).sum
              / ((rows.filter (fun q => q.1 == p.1)).map Prod.snd).length := by
  unfold groupby_mean at hp
  obtain ⟨k, hk, heq⟩ := List.mem_map.1 hp
  subst heq
  refine ⟨?_, rfl⟩
  rw [List.mem_mergeSort] at hk
  exact List.mem_dedup.1 hk

/-- The grouped table has exactly one row per distinct input feature name. -/
theorem groupby_mean_keys (rows : List (String × ℚ)) :
    (groupby_mean rows).map Prod.fst =
      ((rows.map Prod.fst).dedup).mergeSort (fun a b => a ≤ b) := by
  unfold groupby_mean
  rw [List.map_map]
  have hcomp : (Prod.fst ∘ fun k : String =>
      (k, ((rows.filter (fun p => p.1 == k)).map Prod.snd).sum /
        ((rows.filter (fun p => p.1 == k)).map Prod.snd).length)) =
      fun k : String => k := rfl
  rw [hcomp, List.map_id']

/-- C8: the importance table a completed run returns has one row per distinct
feature of the per-fold importance records, each row's score is the arithmetic
mean of that feature's per-fold scores, and the rows are sorted by descending
score. -/
theorem c8_importance_aggregation (o : Oracle) (a : Args) (r : GBDTResult)
    (hr : (experiment_gbdt o a).result = .ok r) :
    List.Sorted impGE r.importance
    ∧ (∀ p ∈ r.importance,
        p.1 ∈ (foldImportances (experiment_gbdt o a).X_train.columns o a.nfolds).map
          Prod.fst
        ∧ p.2 =
          (((foldImportances (experiment_gbdt o a).X_train.columns o a.nfolds).filter
              (fun q => q.1 == p.1)).map Prod.snd).sum
          / (((foldImportances (experiment_gbdt o a).X_train.columns o a.nfolds).filter
              (fun q => q.1 == p.1)).map Prod.snd).length)
    ∧ (r.importance.map Prod.fst).Perm
        (((foldImportances (experiment_gbdt o a).X_train.columns o a.nfolds).map
          Prod.fst).dedup) := by
  obtain ⟨tr, te, m, f, cp, ifn, hn, hd, hdi⟩ := run_ok_elim hr
  have heq := experiment_gbdt_eq o a tr (some te) m f cp ifn hn hd hdi
  have hX : (experiment_gbdt o a).X_train = tr := by rw [heq]
  rw [heq] at hr
  simp only [Except.ok.injEq] at hr
  subst hr
  rw [hX]
  refine ⟨sort_values_sorted _, ?_, ?_⟩
  · intro p hp
    exact groupby_mean_mem ((sort_values_perm _).subset hp)
  · have h1 := (sort_values_perm
      (groupby_mean (foldImportances tr.columns o a.nfolds))).map Prod.fst
    have h2 : ((groupby_mean (foldImportances tr.columns o a.nfolds)).map Prod.fst).Perm
        (((foldImportances tr.columns o a.nfolds).map Prod.fst).dedup) := by
      rw [groupby_mean_keys]
      exact List.mergeSort_perm _ _
    exact h1.trans h2

/-- Witness for C8 on the concrete two-fold run: the returned table, its
sortedness, and the mean of feature `a`'s scores `3` and `4` across folds. -/
theorem c8_importance_aggregation_witness :
    (experiment_gbdt oHappy aC4).result = .ok rC4
    ∧ List.Sorted impGE rC4.importance := by
  have h := c8_importance_aggregation oHappy aC4 rC4 (by with_unfolding_all rfl)
  exact ⟨by with_unfolding_all rfl, h.1⟩

/-! ## C9 and C10 -/

/-- The backend-specific categorical-parameter name the table assigns to a
(gbdt_type, target_type) pair, if the pair is supported. -/
def dispatched_cat_param (gbdt_type target_type : String) : Option String :=
  match _dispatch_gbdt gbdt_type target_type none with
  | .ok x => some x.2.2.1
  | .error _ => none

/-- The categorical-parameter name does not depend on the custom-eval
argument. -/
theorem dispatch_cat_param_eq {g t : String} {c : Option EvalFn}
    {m : ModelClass} {f : EvalFn} {cp : String} {ifn : ImportanceFn}
    (h : _dispatch_gbdt g t c = .ok (m, f, cp, ifn)) :
    dispatched_cat_param g t = some cp := by
  unfold _dispatch_gbdt at h
  unfold dispatched_cat_param _dispatch_gbdt
  rcases hfind : gbdt_table.find?
      (fun x => x.target_type == t && x.gbdt_type == g) with _ | entry
  · rw [hfind] at h; exact absurd h (by simp)
  · rw [hfind] at h
    simp only [Except.ok.injEq, Prod.mk.injEq] at h
    rw [hfind]
    simp [h.2.2.1]

/-- When the identifier column is among the training columns, successful
normalization re-indexes both frames by it. -/
theorem normalize_frames_ok_of_mem {id : String} {X_train : DataFrame}
    {X_test : Option DataFrame} {tr : DataFrame} {te : Option DataFrame}
    (hid : id ∈ X_train.columns)
    (hn : normalize_frames id X_train X_test = .ok (tr, te)) :
    tr = X_train.set_index id ∧ te = X_test.map (fun t => t.set_index id) := by
  cases X_test with
  | none =>
    simp only [normalize_frames, if_pos hid, set_index_indexName,
      if_pos rfl, if_true, Except.ok.injEq, Prod.mk.injEq] at hn
    exact ⟨hn.1.symm, hn.2.symm⟩
  | some t =>
    by_cases hcols : X_train.columns = t.columns
    · simp only [normalize_frames, if_pos hid, if_pos hcols, set_index_indexName,
        if_pos rfl, if_true, Except.ok.injEq, Prod.mk.injEq] at hn
      exact ⟨hn.1.symm, hn.2.symm⟩
    · simp only [normalize_frames, if_pos hid, if_neg hcols] at hn
      exact absurd hn (by simp)

/-- After the injection step the dictionary always holds the key. -/
theorem containsKey_inject (d : Dict) (k : String) (v : FitVal) :
    (if !(d.containsKey k) then d.insertNew k v else d).containsKey k = true := by
  by_cases h : d.containsKey k = true
  · simp [h]
  · have hb : d.containsKey k = false := by simpa using h
    rw [hb]
    simp only [Bool.not_false, if_true, Dict.containsKey, Dict.insertNew,
      List.any_append, List.any_cons, List.any_nil, beq_self_eq_true,
      Bool.true_or, Bool.or_true, Bool.or_false]

/-- A successful lookup means the key is present. -/
theorem get?_isSome_containsKey {d : Dict} {k : String} {v : FitVal}
    (h : d.get? k = some v) : d.containsKey k = true := by
  unfold Dict.get? at h
  unfold Dict.containsKey
  rcases hf : d.find? (fun p => p.1 == k) with _ | p
  · rw [hf] at h; simp at h
  · rw [List.any_eq_true]
    have hpk := List.find?_some hf
    exact ⟨p, List.mem_of_find?_eq_some hf, hpk⟩

/-- C9: `experiment_gbdt` mutates its arguments in place. On a completed run
whose identifier column was among the training columns, the caller's training
frame (and test frame, if supplied) end up re-indexed with the identifier gone
from their columns, and a caller-supplied `fit_params` dict ends up holding
the backend-specific categorical-feature key. -/
theorem c9_inplace_mutation (o : Oracle) (a : Args) (r : GBDTResult)
    (hid : a.id_column ∈ a.X_train.columns)
    (hr : (experiment_gbdt o a).result = .ok r) :
    (experiment_gbdt o a).X_train = a.X_train.set_index a.id_column
    ∧ a.id_column ∉ (experiment_gbdt o a).X_train.columns
    ∧ (∀ t, a.X_test = some t →
        (experiment_gbdt o a).X_test = some (t.set_index a.id_column)
        ∧ a.id_column ∉ (t.set_index a.id_column).columns)
    ∧ (∀ fp cp, a.fit_params = some fp →
        dispatched_cat_param a.gbdt_type o.target_type = some cp →
        ∃ fp2, (experiment_gbdt o a).fit_params = some fp2
          ∧ fp2.containsKey cp = true) := by
  obtain ⟨tr, te, m, f, cp0, ifn, hn, hd, hdi⟩ := run_ok_elim hr
  obtain ⟨htr, hte⟩ := normalize_frames_ok_of_mem hid hn
  subst htr
  have heq := experiment_gbdt_eq o a (a.X_train.set_index a.id_column) (some te)
    m f cp0 ifn hn hd hdi
  refine ⟨by rw [heq], ?_, ?_, ?_⟩
  · rw [heq]
    exact set_index_not_mem_columns _ _
  · intro t ht
    rw [ht] at hte
    simp only [Option.map_some', Option.some.injEq] at hte
    subst hte
    exact ⟨by rw [heq], set_index_not_mem_columns _ _⟩
  · intro fp cp hfp hcp
    have hcp0 : cp0 = cp := by
      have hd0 := dispatch_cat_param_eq hdi
      rw [hcp] at hd0
      exact (Option.some.inj hd0).symm
    have hout : (experiment_gbdt o a).fit_params =
        some (if !((a.fit_params.getD []).containsKey cp0) then
          (a.fit_params.getD []).insertNew cp0
            (.cats (a.categorical_feature.getD
              (autoCategorical (a.X_train.set_index a.id_column))))
        else (a.fit_params.getD [])) := by
      rw [heq, hfp]
      rfl
    exact ⟨_, hout, hcp0 ▸ containsKey_inject _ cp0 _⟩

/-- Caller arguments for the C9 witness: a `fit_params` dict without the
categorical key. -/
def aC9 : Args := { argsHappy with fit_params := some [("x", FitVal.otherVal 0)] }

/-- Caller arguments for the C10 witness: a `fit_params` dict that already
binds `categorical_feature` to an arbitrary caller value. -/
def aC10 : Args :=
  { argsHappy with fit_params := some [("categorical_feature", FitVal.otherVal 7)] }

/-- The result bundle shared by the C9/C10 witness runs (`fit_params` does not
influence the oracle-driven predictions). -/
def rHappy : GBDTResult :=
  ⟨[0, 3], some [1/2], [1, 1, 1], [.LGBMRegressor, .LGBMRegressor],
   [("b", 5), ("a", 7/2)]⟩

/-- Witness for C9: the caller's frame is re-indexed and the caller's dict
gains the categorical key. -/
theorem c9_inplace_mutation_witness :
    (experiment_gbdt oHappy aC9).X_train = trainHappy.set_index "uid"
    ∧ "uid" ∉ (experiment_gbdt oHappy aC9).X_train.columns := by
  have h := c9_inplace_mutation oHappy aC9 rHappy (by decide)
    (by with_unfolding_all rfl)
  exact ⟨h.1, h.2.1⟩

/-- C10: the resolved categorical-feature list is injected into the
fit-time parameters under the dispatched key only when the caller's dict does
not already bind that key; a caller-supplied binding is handed to the
cross-validation driver unchanged, taking precedence over both the supplied
and the auto-detected categorical list. -/
theorem c10_fit_params_precedence (o : Oracle) (a : Args) (r : GBDTResult)
    (cp : String)
    (hr : (experiment_gbdt o a).result = .ok r)
    (hcp : dispatched_cat_param a.gbdt_type o.target_type = some cp) :
    ((a.fit_params.getD []).containsKey cp = false →
      (experiment_gbdt o a).cv_fit_params =
        some ((a.fit_params.getD []).insertNew cp
          (.cats (a.categorical_feature.getD
            (autoCategorical (experiment_gbdt o a).X_train)))))
    ∧ ((a.fit_params.getD []).containsKey cp = true →
      (experiment_gbdt o a).cv_fit_params = some (a.fit_params.getD []))
    ∧ (∀ v, (a.fit_params.getD []).get? cp = some v →
        ((experiment_gbdt o a).cv_fit_params.getD []).get? cp = some v) := by
  obtain ⟨tr, te, m, f, cp0, ifn, hn, hd, hdi⟩ := run_ok_elim hr
  have hcp0 : cp0 = cp := by
    have hd0 := dispatch_cat_param_eq hdi
    rw [hcp] at hd0
    exact (Option.some.inj hd0).symm
  rw [hcp0] at hdi
  have heq := experiment_gbdt_eq o a tr (some te) m f cp ifn hn hd hdi
  have hX : (experiment_gbdt o a).X_train = tr := by rw [heq]
  have hcv : (experiment_gbdt o a).cv_fit_params =
      some (if !((a.fit_params.getD []).containsKey cp) then
        (a.fit_params.getD []).insertNew cp
          (.cats (a.categorical_feature.getD (autoCategorical tr)))
      else (a.fit_params.getD [])) := by rw [heq]
  refine ⟨?_, ?_, ?_⟩
  · intro h
    rw [hX]
    simp only [hcv, h, Bool.not_false, if_true]
  · intro h
    simp only [hcv, h, Bool.not_true, Bool.false_eq_true, if_false]
  · intro v hv
    have hc := get?_isSome_containsKey hv
    simp only [hcv, hc, Bool.not_true, Bool.false_eq_true, if_false,
      Option.getD_some]
    exact hv

/-- Witness for C10: the caller's explicit `categorical_feature` binding is
passed to the driver untouched. -/
theorem c10_fit_params_precedence_witness :
    (experiment_gbdt oHappy aC10).cv_fit_params =
      some [("categorical_feature", FitVal.otherVal 7)]
    ∧ ((experiment_gbdt oHappy aC10).cv_fit_params.getD []).get?
        "categorical_feature" = some (FitVal.otherVal 7) := by
  have h := c10_fit_params_precedence oHappy aC10 rHappy "categorical_feature"
    (by with_unfolding_all rfl) rfl
  exact ⟨h.2.1 (by decide), h.2.2 (FitVal.otherVal 7) (by decide)⟩

end Nyaggle
